import Mathlib

/-!
Shallow embedding of the LunaSDK RHI core (Metal command buffer, Metal
descriptor set, D3D12 resource heap) used to check the specification's
claims against the code.

The embedding follows the source files:
  Modules/Luna/RHI/Source/Metal/CommandBuffer.cpp
  Modules/Luna/RHI/Source/Metal/DescriptorSet.cpp
  Modules/RHI/Source/D3D12/ResourceHeap.cpp
Native Metal/D3D12 side effects (encoder calls, blit commands) are recorded
as an explicit command trace; native object creation (MTL command buffers,
samplers, heaps) is modelled as succeeding, since the claims under
consideration are about the recording logic, not about platform failures.
-/

namespace LunaRHI

/-- Portable pixel formats. Only the formats the claims exercise are
included; `unknown` is `Format::unknown` (raw byte addressing). -/
inductive Format where
  | unknown
  | r16_uint
  | r32_uint
  | rgba8_unorm
deriving DecidableEq, Repr

/-- Modelled from the spec: `bits_per_pixel` (RHI utility, not part of the
excerpt) returns the number of bits of one pixel of the format; the spec
uses it as `bits_per_pixel(format)/8` for the byte stride of typed buffer
views (`r16_uint` is a 16-bit format, `r32_uint` and `rgba8_unorm` are
32-bit formats, `unknown` has no pixel size). -/
def bits_per_pixel : Format → Nat
  | .unknown => 0
  | .r16_uint => 16
  | .r32_uint => 32
  | .rgba8_unorm => 32

/-- Metal index types (`MTL::IndexType`). -/
inductive IndexType where
  | uint16
  | uint32
deriving DecidableEq, Repr

/-- Modelled from the spec: `encode_index_type` (Metal backend common
helper, not part of the excerpt) maps the index-buffer format to the Metal
index type; per the spec the index stride is 2 bytes for `r16_uint` and 4
bytes for `r32_uint`. -/
def encode_index_type : Format → IndexType
  | .r16_uint => .uint16
  | _ => .uint32

/-- The part of a texture's descriptor the claims need. -/
structure TextureDesc where
  width : Nat
  height : Nat
deriving DecidableEq, Repr

/-- Portable resource states named by barrier requests
(minimal selection). -/
inductive BarrierState where
  | automatic
  | shader_read_cs
  | shader_write_cs
  | copy_source
  | copy_dest
deriving DecidableEq, Repr

/-- Embedding of `BufferBarrier`: a requested state transition on a buffer (the buffer
is identified by a numeric handle). -/
structure BufferBarrier where
  buffer : Nat
  before : BarrierState
  after : BarrierState
deriving DecidableEq, Repr

/-- Embedding of `TextureBarrier`: a requested state transition on a texture. -/
structure TextureBarrier where
  texture : Nat
  before : BarrierState
  after : BarrierState
deriving DecidableEq, Repr

/-- Commands emitted to the native Metal encoders by the recording
functions. Buffers and textures are identified by numeric handles;
`copyFromBuffer src srcOffset dst dstOffset size` mirrors
`MTL::BlitCommandEncoder::copyFromBuffer`. -/
inductive MetalCommand where
  | setRenderTargetSize (width height : Nat)
  | memoryBarrier (resources : List Nat)
  | copyFromBuffer (src srcOffset dst dstOffset size : Nat)
  | copyFromTexture (src dst : Nat)
  | drawIndexedPrimitives (indexCount indexBuffer indexBufferOffset instanceCount : Nat)
      (baseVertex : Int) (startInstance : Nat)
  | setVertexBuffer (buffer offset index : Nat)
  | setDescriptorSets (startIndex count : Nat)
  | dispatchThreadgroups (x y z : Nat)
deriving DecidableEq, Repr

/-- Embedding of `IndexBufferView` as stored by `set_index_buffer`
(`m_index_buffer_view`). -/
structure IndexBufferView where
  buffer : Nat
  format : Format
deriving DecidableEq, Repr

/-- The recording state of `RHI::CommandBuffer` (Metal backend): the three
encoder members `m_render`, `m_compute`, `m_blit` are modelled by whether
each encoder is present, `m_objs` is the attached-device-object retain
list, `m_index_buffer_view` the stored index buffer view, and `commands`
the trace of native encoder calls issued so far. -/
structure CommandBufferState where
  render : Bool
  compute : Bool
  blit : Bool
  objs : List Nat
  index_buffer_view : Option IndexBufferView
  commands : List MetalCommand
deriving DecidableEq, Repr

/-- Holds when `!m_render && !m_compute && !m_blit` is false, i.e. some pass is
currently open. -/
def pass_open (s : CommandBufferState) : Bool :=
  s.render || s.compute || s.blit

/-- Append one native encoder call to the trace. -/
def emit (s : CommandBufferState) (c : MetalCommand) : CommandBufferState :=
  { s with commands := s.commands ++ [c] }

/-- A color attachment of `RenderPassDesc`: a bound texture or an unbound
slot (`texture == nullptr`). Load/store/clear configuration is forwarded
to the native descriptor object and is not tracked by the state model. -/
structure ColorAttachment where
  texture : Option TextureDesc
deriving DecidableEq, Repr

/-- The depth-stencil attachment of `RenderPassDesc`. -/
structure DepthStencilAttachment where
  texture : Option TextureDesc
deriving DecidableEq, Repr

/-- The part of `RenderPassDesc` that determines the recording state and
the render-target size. -/
structure RenderPassDesc where
  color_attachments : List ColorAttachment
  depth_stencil_attachment : DepthStencilAttachment
deriving DecidableEq, Repr

/-- The `width`/`height` accumulation performed by the color-attachment
loop of `begin_render_pass` (CommandBuffer.cpp lines 68-100): iterate the
color attachments in order, stop at the first unbound slot (`break`), and
overwrite the accumulated size with each bound attachment's texture size. -/
def render_target_size_colors : List ColorAttachment → Nat × Nat → Nat × Nat
  | [], wh => wh
  | a :: rest, wh =>
    match a.texture with
    | none => wh
    | some t => render_target_size_colors rest (t.width, t.height)

/-- The render-target size computed by `begin_render_pass`: the color loop
(over the 8 slots) starting from `(0, 0)`, then overwritten by the
depth-stencil attachment's texture size when one is bound
(CommandBuffer.cpp lines 101-119, 128-129). -/
def render_target_size (desc : RenderPassDesc) : Nat × Nat :=
  let wh := render_target_size_colors (desc.color_attachments.take 8) (0, 0)
  match desc.depth_stencil_attachment.texture with
  | some t => (t.width, t.height)
  | none => wh

/-- Embedding of `CommandBuffer::begin_render_pass`: fatal check
`lucheck_msg(!m_render && !m_compute && !m_blit, ...)` (modelled as
`none`), then configures the native render-pass descriptor, sets the
render-target width/height derived by the attachment loop, and opens the
render encoder (`m_render`). -/
def begin_render_pass (s : CommandBufferState) (desc : RenderPassDesc) :
    Option CommandBufferState :=
  if pass_open s then none
  else
    let wh := render_target_size desc
    some { (emit s (.setRenderTargetSize wh.1 wh.2)) with render := true }

/-- Embedding of `CommandBuffer::end_render_pass`: ends encoding and resets
`m_render`. -/
def end_render_pass (s : CommandBufferState) : Option CommandBufferState :=
  if s.render then some { s with render := false } else none

/-- Embedding of `CommandBuffer::begin_compute_pass`: fatal pass-open check, then opens
the compute encoder (`m_compute`). -/
def begin_compute_pass (s : CommandBufferState) : Option CommandBufferState :=
  if pass_open s then none
  else some { s with compute := true }

/-- Embedding of `CommandBuffer::end_compute_pass`. -/
def end_compute_pass (s : CommandBufferState) : Option CommandBufferState :=
  if s.compute then some { s with compute := false } else none

/-- Embedding of `CommandBuffer::begin_copy_pass`: fatal pass-open check, then opens
the blit encoder (`m_blit`). -/
def begin_copy_pass (s : CommandBufferState) : Option CommandBufferState :=
  if pass_open s then none
  else some { s with blit := true }

/-- Embedding of `CommandBuffer::end_copy_pass`. -/
def end_copy_pass (s : CommandBufferState) : Option CommandBufferState :=
  if s.blit then some { s with blit := false } else none

/-- Embedding of `CommandBuffer::reset` (CommandBuffer.cpp lines 36-43): clears
`m_objs` and acquires a fresh native command buffer (modelled as clearing
the recorded trace; acquisition is modelled as succeeding). The encoder
members `m_render`/`m_compute`/`m_blit` and `m_index_buffer_view` are not
touched by the source. -/
def reset (s : CommandBufferState) : CommandBufferState :=
  { s with objs := [], commands := [] }

/-- Embedding of `CommandBuffer::attach_device_object`: `m_objs.push_back(obj)`. -/
def attach_device_object (s : CommandBufferState) (obj : Nat) : CommandBufferState :=
  { s with objs := s.objs ++ [obj] }

/-- Embedding of `CommandBuffer::set_index_buffer`: stores the view in
`m_index_buffer_view` (requires the graphics context). -/
def set_index_buffer (s : CommandBufferState) (view : IndexBufferView) :
    Option CommandBufferState :=
  if s.render then some { s with index_buffer_view := some view } else none

/-- Embedding of `CommandBuffer::draw_indexed` (CommandBuffer.cpp lines 257-265):
requires the graphics context and a previously set index buffer view
(without one the source dereferences a null buffer, modelled as `none`);
multiplies `start_index_location` by 2 when the encoded index type is
`IndexTypeUInt16` and by 4 otherwise — a `u32` multiplication, so the
result wraps modulo `2^32` — and passes the product as the byte offset to
`drawIndexedPrimitives` with one instance. -/
def draw_indexed (s : CommandBufferState)
    (index_count start_index_location : Nat) (base_vertex_location : Int) :
    Option CommandBufferState :=
  if s.render = false then none
  else
    match s.index_buffer_view with
    | none => none
    | some view =>
      let t := encode_index_type view.format
      let offset := start_index_location * (if t = IndexType.uint16 then 2 else 4) % 2 ^ 32
      some (emit s (.drawIndexedPrimitives index_count view.buffer offset 1
        base_vertex_location 0))

/-- Embedding of `CommandBuffer::draw_indexed_instanced` (CommandBuffer.cpp lines
273-282): same byte-offset computation as `draw_indexed`, with
caller-specified instance count and start instance. -/
def draw_indexed_instanced (s : CommandBufferState)
    (index_count_per_instance instance_count start_index_location : Nat)
    (base_vertex_location : Int) (start_instance_location : Nat) :
    Option CommandBufferState :=
  if s.render = false then none
  else
    match s.index_buffer_view with
    | none => none
    | some view =>
      let t := encode_index_type view.format
      let offset := start_index_location * (if t = IndexType.uint16 then 2 else 4) % 2 ^ 32
      some (emit s (.drawIndexedPrimitives index_count_per_instance view.buffer offset
        instance_count base_vertex_location start_instance_location))

/-- A resource handle as seen by `copy_resource`: `cast_object<Buffer>`
succeeds exactly on buffers and `cast_object<Texture>` exactly on
textures. A buffer carries its `m_desc.size`. -/
inductive Resource where
  | buffer (id : Nat) (size : Nat)
  | texture (id : Nat)
deriving DecidableEq, Repr

/-- Embedding of `CommandBuffer::copy_resource` (CommandBuffer.cpp lines 330-350):
requires the copy context; when both handles cast to `Buffer` it emits
`copyFromBuffer(src, 0, dst, 0, min(dst.size, src.size))` and returns;
when both cast to `Texture` it emits the full-resource
`copyFromTexture(src, dst)`; otherwise neither branch fires and the call
does nothing. -/
def copy_resource (s : CommandBufferState) (dst src : Resource) :
    Option CommandBufferState :=
  if s.blit = false then none
  else
    match dst, src with
    | .buffer d dsize, .buffer sc ssize =>
      some (emit s (.copyFromBuffer sc 0 d 0 (min dsize ssize)))
    | .texture d, .texture sc =>
      some (emit s (.copyFromTexture sc d))
    | _, _ => some s

/-- Embedding of `CommandBuffer::set_graphics_descriptor_set` (CommandBuffer.cpp lines
165-172): fatal range check `lucheck_msg(index < 16, ...)`, then the
graphics-context assertion, then binds the set's argument buffer at the
given index for the vertex and fragment stages. -/
def set_graphics_descriptor_set (s : CommandBufferState)
    (index : Nat) (descriptor_set : Nat) : Option CommandBufferState :=
  if (index < 16 : Bool) = false then none
  else if s.render = false then none
  else some (emit s (.setVertexBuffer descriptor_set 0 index))

/-- Embedding of `CommandBuffer::set_graphics_descriptor_sets` (CommandBuffer.cpp lines
173-187): fatal range check
`lucheck_msg(start_index + descriptor_sets.size() < 16, ...)` — note the
strict inequality — then the graphics-context assertion, then binds the
sets at `[start_index, start_index + count)`. -/
def set_graphics_descriptor_sets (s : CommandBufferState)
    (start_index : Nat) (descriptor_sets : List Nat) : Option CommandBufferState :=
  if (start_index + descriptor_sets.length < 16 : Bool) = false then none
  else if s.render = false then none
  else some (emit s (.setDescriptorSets start_index descriptor_sets.length))

/-- Embedding of `CommandBuffer::resource_barrier` (CommandBuffer.cpp lines 402-423):
the whole body — including the compute-pass `memoryBarrier` path — is
commented out in the source, so the call performs nothing at all. -/
def resource_barrier (s : CommandBufferState)
    (buffer_barriers : List BufferBarrier) (texture_barriers : List TextureBarrier) :
    CommandBufferState :=
  s

/-! ### Descriptor set (Metal backend, DescriptorSet.cpp) -/

/-- Portable descriptor types (`DescriptorType`). -/
inductive DescriptorType where
  | uniform_buffer_view
  | read_buffer_view
  | read_write_buffer_view
  | read_texture_view
  | read_write_texture_view
  | sampler
deriving DecidableEq, Repr

/-- One binding record of a `DescriptorSetLayout`
(`{binding_slot, type, num_descs, ...}`). -/
structure DescriptorSetLayoutBinding where
  binding_slot : Nat
  type : DescriptorType
  num_descs : Nat
deriving DecidableEq, Repr

/-- The part of `DescriptorSetLayout` that `update_descriptors` reads:
the ordered binding records (`m_bindings`) and the precomputed argument
offset of each binding (`m_argument_offsets`, one entry per binding). -/
structure DescriptorSetLayoutState where
  bindings : List DescriptorSetLayoutBinding
  argument_offsets : List Nat
deriving DecidableEq, Repr

/-- A `BufferViewDesc` entry of a write: the bound buffer is represented
by its base GPU address (`gpuAddress()`). -/
structure BufferViewDesc where
  buffer_address : Nat
  first_element : Nat
  element_size : Nat
  format : Format
deriving DecidableEq, Repr

/-- A `WriteDescriptorSet` entry. Texture views and samplers are
represented by the GPU resource id that ends up in the argument slot
(`gpuResourceID()`); native sampler creation is modelled as succeeding. -/
structure WriteDescriptorSet where
  binding_slot : Nat
  type : DescriptorType
  first_array_index : Nat
  buffer_views : List BufferViewDesc
  texture_views : List Nat
  samplers : List Nat
deriving Repr

/-- The state of a `DescriptorSet`: its layout and the contents of its
argument buffer (`m_buffer`), one 64-bit slot per argument index. -/
structure DescriptorSetState where
  layout : DescriptorSetLayoutState
  data : Nat → Option Nat

/-- The RHI error taxonomy (the members the claims exercise). -/
inductive RHIError where
  | bad_arguments
  | bad_platform_call
deriving DecidableEq, Repr

/-- The linear scan of DescriptorSet.cpp lines 71-78: the index of the
first binding record whose `binding_slot` equals the write's slot, or
`none` when the loop runs off the end. -/
def find_binding_index (bindings : List DescriptorSetLayoutBinding) (slot : Nat) :
    Option Nat :=
  bindings.findIdx? (fun b => b.binding_slot == slot)

/-- Write one 64-bit value into an argument slot. -/
def write_slot (data : Nat → Option Nat) (slot value : Nat) : Nat → Option Nat :=
  fun j => if j = slot then some value else data j

/-- The per-view byte offset added to the buffer's base GPU address
(DescriptorSet.cpp lines 91 and 102): `first_element` for uniform-buffer
views; for read/read-write buffer views, `element_size * first_element`
when the view format is `unknown`, else
`bits_per_pixel(format) * first_element / 8`. -/
def buffer_view_offset (t : DescriptorType) (v : BufferViewDesc) : Nat :=
  match t with
  | .uniform_buffer_view => v.first_element
  | _ =>
    if v.format = Format.unknown then v.element_size * v.first_element
    else bits_per_pixel v.format * v.first_element / 8

/-- The buffer-view loop of a single write (DescriptorSet.cpp lines 87-94
and 98-105): writes `gpuAddress + offset` into consecutive argument
slots starting at `off`. -/
def write_buffer_views (t : DescriptorType) (off : Nat) (views : List BufferViewDesc)
    (data : Nat → Option Nat) : Nat → Option Nat :=
  match views with
  | [] => data
  | v :: rest =>
    write_buffer_views t (off + 1) rest
      (write_slot data off (v.buffer_address + buffer_view_offset t v))

/-- The texture-view and sampler loops: write each entry's GPU resource id
into consecutive argument slots starting at `off`. -/
def write_resource_ids (off : Nat) (ids : List Nat) (data : Nat → Option Nat) :
    Nat → Option Nat :=
  match ids with
  | [] => data
  | id :: rest => write_resource_ids (off + 1) rest (write_slot data off id)

/-- Embedding of `DescriptorSet::update_descriptors` (DescriptorSet.cpp lines 63-189):
processes the writes in order; for each write, resolves `binding_slot` by
the linear scan — returning `BasicError::bad_arguments()` when it matches
no binding record, before touching that write's descriptors — then writes
the descriptors at `m_argument_offsets[binding_index] + first_array_index`.
Returns the updated argument buffer together with the error, if any
(in the source the argument buffer is mutated in place, so writes processed
before a failing write persist). -/
def update_descriptors (s : DescriptorSetState) :
    List WriteDescriptorSet → DescriptorSetState × Option RHIError
  | [] => (s, none)
  | w :: rest =>
    match find_binding_index s.layout.bindings w.binding_slot with
    | none => (s, some RHIError.bad_arguments)
    | some binding_index =>
      let argument_offset := s.layout.argument_offsets.getD binding_index 0
        + w.first_array_index
      match w.type with
      | .uniform_buffer_view | .read_buffer_view | .read_write_buffer_view =>
        update_descriptors
          { s with data := write_buffer_views w.type argument_offset w.buffer_views s.data }
          rest
      | .read_texture_view | .read_write_texture_view =>
        update_descriptors
          { s with data := write_resource_ids argument_offset w.texture_views s.data }
          rest
      | .sampler =>
        update_descriptors
          { s with data := write_resource_ids argument_offset w.samplers s.data }
          rest

/-! ### Resource heap (D3D12 backend, ResourceHeap.cpp) -/

/-- The `ResourceHeapUsageFlag` set requested at heap creation. -/
structure ResourceHeapUsageFlags where
  buffer : Bool
  texture_non_rt_ds : Bool
  texture_rt_ds : Bool
  texture_msaa : Bool
deriving DecidableEq, Repr

def D3D12_HEAP_FLAG_DENY_BUFFERS : Nat := 0x4
def D3D12_HEAP_FLAG_DENY_RT_DS_TEXTURES : Nat := 0x40
def D3D12_HEAP_FLAG_DENY_NON_RT_DS_TEXTURES : Nat := 0x80

/-- Computes `f &= ~m` on a 32-bit flag word. -/
def flag_clear (f m : Nat) : Nat := f &&& (0xFFFFFFFF ^^^ m)

/-- The heap deny-flag derivation of `ResourceHeap::init` (ResourceHeap.cpp
lines 35-47): start from all three deny flags, then clear the one matching
each usage flag present in the request. -/
def resource_heap_flags (usages : ResourceHeapUsageFlags) : Nat :=
  let f := D3D12_HEAP_FLAG_DENY_BUFFERS ||| D3D12_HEAP_FLAG_DENY_RT_DS_TEXTURES
    ||| D3D12_HEAP_FLAG_DENY_NON_RT_DS_TEXTURES
  let f := if usages.buffer then flag_clear f D3D12_HEAP_FLAG_DENY_BUFFERS else f
  let f := if usages.texture_rt_ds then flag_clear f D3D12_HEAP_FLAG_DENY_RT_DS_TEXTURES else f
  let f := if usages.texture_non_rt_ds then flag_clear f D3D12_HEAP_FLAG_DENY_NON_RT_DS_TEXTURES else f
  f

/-! ### Claim theorems -/

/-- Predicate on traced commands: holds on `memoryBarrier` calls. -/
def is_memory_barrier : MetalCommand → Bool
  | .memoryBarrier _ => true
  | _ => false

/-- A command buffer with a render pass open (used as the already-open
state of the C1 witness). -/
def c1_open_state : CommandBufferState :=
  ⟨true, false, false, [], none, []⟩

/-- An idle command buffer (used as the idle state of the C1 witness). -/
def c1_idle_state : CommandBufferState :=
  ⟨false, false, false, [], none, []⟩

/-- A render-pass descriptor with no bound attachment (C1 witness). -/
def c1_desc : RenderPassDesc := ⟨[], ⟨none⟩⟩

/-- C1: for every command buffer, each pass-opening call fails the fatal
pass-open check when a render, compute, or copy pass is currently open;
when no pass is open, the check passes and exactly the corresponding pass
becomes the single open pass. -/
theorem begin_pass_exclusive (s : CommandBufferState) (desc : RenderPassDesc) :
    (pass_open s = true →
      begin_render_pass s desc = none ∧ begin_compute_pass s = none ∧
      begin_copy_pass s = none) ∧
    (pass_open s = false →
      (∃ s1, begin_render_pass s desc = some s1 ∧
        s1.render = true ∧ s1.compute = false ∧ s1.blit = false) ∧
      (∃ s2, begin_compute_pass s = some s2 ∧
        s2.compute = true ∧ s2.render = false ∧ s2.blit = false) ∧
      (∃ s3, begin_copy_pass s = some s3 ∧
        s3.blit = true ∧ s3.render = false ∧ s3.compute = false)) := by
  constructor
  · intro h
    simp [begin_render_pass, begin_compute_pass, begin_copy_pass, h]
  · intro h
    rw [pass_open, Bool.or_eq_false_iff, Bool.or_eq_false_iff] at h
    obtain ⟨⟨hr, hc⟩, hb⟩ := h
    have hpo : pass_open s = false := by simp [pass_open, hr, hc, hb]
    refine ⟨?_, ?_, ?_⟩
    · refine ⟨{ (emit s (.setRenderTargetSize (render_target_size desc).1
        (render_target_size desc).2)) with render := true }, ?_, rfl, hc, hb⟩
      simp [begin_render_pass, hpo]
    · refine ⟨{ s with compute := true }, ?_, rfl, hr, hb⟩
      simp [begin_compute_pass, hpo]
    · refine ⟨{ s with blit := true }, ?_, rfl, hr, hc⟩
      simp [begin_copy_pass, hpo]

/-- C1 witness: the pass-open check at concrete states — a buffer with a
render pass open rejects all three begins, and an idle buffer accepts each
of them. -/
theorem begin_pass_exclusive_witness :
    (pass_open c1_open_state = true ∧
      (begin_render_pass c1_open_state c1_desc = none ∧
       begin_compute_pass c1_open_state = none ∧
       begin_copy_pass c1_open_state = none)) ∧
    (pass_open c1_idle_state = false ∧
      ((∃ s1, begin_render_pass c1_idle_state c1_desc = some s1 ∧
        s1.render = true ∧ s1.compute = false ∧ s1.blit = false) ∧
      (∃ s2, begin_compute_pass c1_idle_state = some s2 ∧
        s2.compute = true ∧ s2.render = false ∧ s2.blit = false) ∧
      (∃ s3, begin_copy_pass c1_idle_state = some s3 ∧
        s3.blit = true ∧ s3.render = false ∧ s3.compute = false))) :=
  ⟨⟨by decide, (begin_pass_exclusive c1_open_state c1_desc).1 (by decide)⟩,
   ⟨by decide, (begin_pass_exclusive c1_idle_state c1_desc).2 (by decide)⟩⟩

/-- A command buffer with a compute pass open (C2 counterexample state). -/
def c2_state : CommandBufferState :=
  ⟨false, true, false, [], none, []⟩

/-- A buffer barrier request naming buffer 7 (C2 counterexample). -/
def c2_barrier : BufferBarrier :=
  ⟨7, .shader_write_cs, .shader_read_cs⟩

/-- C2 counterexample: with a compute pass open and a non-empty buffer
barrier list, `resource_barrier` emits no `memoryBarrier` command and
changes nothing at all, contradicting the claim that it inserts a
`memoryBarrier` covering the named resources. -/
theorem resource_barrier_counterexample :
    c2_state.compute = true ∧
    (resource_barrier c2_state [c2_barrier] []).commands.any is_memory_barrier
      = false ∧
    resource_barrier c2_state [c2_barrier] [] = c2_state := by decide

/-- C2 amended: on the Metal backend, `resource_barrier` is a complete
no-op — its whole body, including the compute-pass `memoryBarrier` path
and any state bookkeeping, is commented out in the source. -/
theorem resource_barrier_is_noop (s : CommandBufferState)
    (buffer_barriers : List BufferBarrier)
    (texture_barriers : List TextureBarrier) :
    resource_barrier s buffer_barriers texture_barriers = s := rfl

/-- A command buffer with an open copy pass (C4 witness state). -/
def c4_state : CommandBufferState :=
  ⟨false, false, true, [], none, []⟩

/-- C4: in an open copy pass, `copy_resource` copies exactly
`min(dst.size, src.size)` bytes from offset 0 of the source buffer to
offset 0 of the destination buffer when both resources are buffers, issues
a full-resource texture copy when both are textures, and performs no copy
at all when the resource types are mismatched. -/
theorem copy_resource_dispatch (s : CommandBufferState) (h : s.blit = true)
    (dst_id src_id dst_size src_size dst_tex src_tex : Nat) :
    copy_resource s (.buffer dst_id dst_size) (.buffer src_id src_size)
      = some (emit s (.copyFromBuffer src_id 0 dst_id 0 (min dst_size src_size))) ∧
    copy_resource s (.texture dst_tex) (.texture src_tex)
      = some (emit s (.copyFromTexture src_tex dst_tex)) ∧
    copy_resource s (.buffer dst_id dst_size) (.texture src_tex) = some s ∧
    copy_resource s (.texture dst_tex) (.buffer src_id src_size) = some s := by
  simp [copy_resource, h]

/-- C4 witness: in a concrete open copy pass, copying between buffers of
sizes 100 and 64 emits a 64-byte copy, and a buffer/texture pair is a
no-op. -/
theorem copy_resource_dispatch_witness :
    c4_state.blit = true ∧
    copy_resource c4_state (.buffer 1 100) (.buffer 2 64)
      = some (emit c4_state (.copyFromBuffer 2 0 1 0 64)) ∧
    copy_resource c4_state (.buffer 1 100) (.texture 3) = some c4_state :=
  ⟨rfl, (copy_resource_dispatch c4_state rfl 1 2 100 64 3 3).1,
    (copy_resource_dispatch c4_state rfl 1 2 100 64 3 3).2.2.1⟩

/-- C8: the heap deny-flags derived from a `ResourceHeapUsageFlag` set
deny exactly the resource categories whose usage flag is absent. -/
theorem resource_heap_deny_flags (usages : ResourceHeapUsageFlags) :
    ((resource_heap_flags usages &&& D3D12_HEAP_FLAG_DENY_BUFFERS ≠ 0) ↔
      usages.buffer = false) ∧
    ((resource_heap_flags usages &&& D3D12_HEAP_FLAG_DENY_RT_DS_TEXTURES ≠ 0) ↔
      usages.texture_rt_ds = false) ∧
    ((resource_heap_flags usages &&& D3D12_HEAP_FLAG_DENY_NON_RT_DS_TEXTURES ≠ 0) ↔
      usages.texture_non_rt_ds = false) := by
  obtain ⟨b, n, r, m⟩ := usages
  cases b <;> cases n <;> cases r <;> cases m <;> decide

/-- A command buffer with a render pass open and two attached device
objects (C9 counterexample state). -/
def c9_state : CommandBufferState :=
  ⟨true, false, false, [4, 5], none, []⟩

/-- C9 counterexample: resetting a command buffer that has a render pass
open clears the retain list but leaves the pass open, so the claim's
conjunction (retain list empty and state Idle) fails. -/
theorem reset_counterexample :
    ¬ ((reset c9_state).objs = [] ∧ pass_open (reset c9_state) = false) ∧
    (reset c9_state).objs = [] ∧ pass_open (reset c9_state) = true := by decide

/-- C9 amended: after `reset()` the attached-device-object retain list is
empty, but `reset` does not close any open pass — each pass-open flag is
unchanged, so the state is Idle after `reset` exactly when it already was
Idle before the call. -/
theorem reset_clears_objs_preserves_passes (s : CommandBufferState) :
    (reset s).objs = [] ∧ (reset s).render = s.render ∧
    (reset s).compute = s.compute ∧ (reset s).blit = s.blit ∧
    pass_open (reset s) = pass_open s :=
  ⟨rfl, rfl, rfl, rfl, rfl⟩

/-- A command buffer in an open render pass (C10 state). -/
def c10_state : CommandBufferState :=
  ⟨true, false, false, [], none, []⟩

/-- C10: divergence of the two binding entry points at the upper bound of
the documented index range [0, 16) — `set_graphics_descriptor_set` accepts
index 15, while `set_graphics_descriptor_sets` rejects the one-element
range at start index 15 and the range [8, 16), because its check uses
`start_index + count < 16` instead of `<= 16`. -/
theorem descriptor_set_index_range_divergence :
    (set_graphics_descriptor_set c10_state 15 0).isSome = true ∧
    set_graphics_descriptor_sets c10_state 15 [0] = none ∧
    set_graphics_descriptor_sets c10_state 8 [0, 1, 2, 3, 4, 5, 6, 7] = none ∧
    (set_graphics_descriptor_sets c10_state 8 [0, 1, 2, 3, 4, 5, 6]).isSome
      = true := by decide

/-- Characterization of the encoded Metal index type: it is `uint16`
exactly for the `r16_uint` format. -/
lemma encode_index_type_eq_uint16 (f : Format) :
    (encode_index_type f = IndexType.uint16) ↔ f = Format.r16_uint := by
  cases f <;> decide

/-- A command buffer recording a render pass with an `r32_uint` index
buffer view on buffer 7 (C3 counterexample state). -/
def c3_state : CommandBufferState :=
  ⟨true, false, false, [], some ⟨7, Format.r32_uint⟩, []⟩

/-- C3 counterexample: with format `r32_uint` and
`start_index_location = 2^31`, the byte offset passed to the backend is
`(2^31 * 4) mod 2^32 = 0`, not `2^31 * 4`: the `u32` multiplication in the
source wraps. -/
theorem draw_indexed_offset_counterexample :
    (draw_indexed c3_state 3 2147483648 0).map CommandBufferState.commands
      = some [MetalCommand.drawIndexedPrimitives 3 7 0 1 0 0] ∧
    (0 : Nat) ≠ 2147483648 * 4 := by decide

/-- C3 amended: whenever the `u32` product does not overflow
(`start_index_location * stride < 2^32`, which holds for every offset that
can address an actual index buffer), `draw_indexed` and
`draw_indexed_instanced` pass byte offset
`start_index_location * 2` for `r16_uint` and `start_index_location * 4`
otherwise; in general the passed offset is the product reduced modulo
`2^32`. -/
theorem draw_indexed_offset (s : CommandBufferState) (view : IndexBufferView)
    (hv : s.index_buffer_view = some view) (hr : s.render = true)
    (index_count instance_count start_index_location : Nat)
    (base_vertex_location : Int) (start_instance_location : Nat)
    (hbound : start_index_location *
      (if view.format = Format.r16_uint then 2 else 4) < 2 ^ 32) :
    (draw_indexed s index_count start_index_location base_vertex_location).map
        CommandBufferState.commands
      = some (s.commands ++ [MetalCommand.drawIndexedPrimitives index_count
          view.buffer
          (start_index_location * (if view.format = Format.r16_uint then 2 else 4))
          1 base_vertex_location 0]) ∧
    (draw_indexed_instanced s index_count instance_count start_index_location
        base_vertex_location start_instance_location).map
        CommandBufferState.commands
      = some (s.commands ++ [MetalCommand.drawIndexedPrimitives index_count
          view.buffer
          (start_index_location * (if view.format = Format.r16_uint then 2 else 4))
          instance_count base_vertex_location start_instance_location]) := by
  have h32 : (2 : Nat) ^ 32 = 4294967296 := by norm_num
  rw [h32] at hbound
  by_cases hf : view.format = Format.r16_uint
  · rw [if_pos hf] at hbound
    constructor <;>
      simp [draw_indexed, draw_indexed_instanced, hv, hr, emit,
        encode_index_type, hf, Nat.mod_eq_of_lt] <;>
      omega
  · rw [if_neg hf] at hbound
    constructor <;>
      simp [draw_indexed, draw_indexed_instanced, hv, hr, emit,
        encode_index_type_eq_uint16, hf, Nat.mod_eq_of_lt] <;>
      omega

/-- A command buffer recording a render pass with an `r32_uint` index
buffer view on buffer 9 (C3 witness state). -/
def c3_witness_state : CommandBufferState :=
  ⟨true, false, false, [], some ⟨9, Format.r32_uint⟩, []⟩

/-- C3 witness: at `start_index_location = 10` with format `r32_uint`,
both draw calls pass byte offset 40. -/
theorem draw_indexed_offset_witness :
    c3_witness_state.index_buffer_view = some ⟨9, Format.r32_uint⟩ ∧
    c3_witness_state.render = true ∧
    10 * (if Format.r32_uint = Format.r16_uint then 2 else 4) < 2 ^ 32 ∧
    (draw_indexed c3_witness_state 6 10 0).map CommandBufferState.commands
      = some [MetalCommand.drawIndexedPrimitives 6 9 40 1 0 0] ∧
    (draw_indexed_instanced c3_witness_state 6 2 10 0 1).map
        CommandBufferState.commands
      = some [MetalCommand.drawIndexedPrimitives 6 9 40 2 0 1] :=
  ⟨rfl, rfl, by decide,
    (draw_indexed_offset c3_witness_state ⟨9, Format.r32_uint⟩ rfl rfl
      6 2 10 0 1 (by decide)).1,
    (draw_indexed_offset c3_witness_state ⟨9, Format.r32_uint⟩ rfl rfl
      6 2 10 0 1 (by decide)).2⟩

/-- An idle command buffer (C5 counterexample state). -/
def c5_idle : CommandBufferState :=
  ⟨false, false, false, [], none, []⟩

/-- A render-pass descriptor binding two color attachments of different
sizes, 16×16 then 8×8, and no depth-stencil attachment
(C5 counterexample). -/
def c5_desc : RenderPassDesc :=
  ⟨[⟨some ⟨16, 16⟩⟩, ⟨some ⟨8, 8⟩⟩, ⟨none⟩], ⟨none⟩⟩

/-- The size of the first bound attachment of a render-pass descriptor,
following the claim's words (refinement comparison definition): the first
color attachment with a bound texture, else the depth-stencil
attachment. -/
def first_bound_attachment_size (desc : RenderPassDesc) : Option (Nat × Nat) :=
  match desc.color_attachments.find? (fun a => a.texture.isSome) with
  | some a => a.texture.map (fun t => (t.width, t.height))
  | none => desc.depth_stencil_attachment.texture.map (fun t => (t.width, t.height))

/-- C5 counterexample: with bound color attachments of sizes 16×16 and
8×8, `begin_render_pass` sets the render-target size to 8×8 (the last
bound attachment), while the first bound attachment measures 16×16. -/
theorem begin_render_pass_size_counterexample :
    (begin_render_pass c5_idle c5_desc).map CommandBufferState.commands
      = some [MetalCommand.setRenderTargetSize 8 8] ∧
    first_bound_attachment_size c5_desc = some (16, 16) ∧
    ((8, 8) : Nat × Nat) ≠ (16, 16) := by decide

/-- The size of one color attachment's texture ((0, 0) when unbound). -/
def attachment_size (a : ColorAttachment) : Nat × Nat :=
  match a.texture with
  | some t => (t.width, t.height)
  | none => (0, 0)

/-- The render-target size per the amended claim: the depth-stencil
texture's size when one is bound; otherwise the size of the last bound
color attachment preceding the first unbound slot among the first 8
slots, and (0, 0) when no attachment is bound at all. -/
def last_bound_attachment_size (desc : RenderPassDesc) : Nat × Nat :=
  match desc.depth_stencil_attachment.texture with
  | some t => (t.width, t.height)
  | none =>
    ((((desc.color_attachments.take 8).takeWhile
      (fun a => a.texture.isSome)).map attachment_size).getLast?).getD (0, 0)

/-- Helper: pushing a head element into a `getLast?`-with-default. -/
lemma getLast?_getD_cons {α : Type} (x : α) (xs : List α) (d : α) :
    ((x :: xs).getLast?).getD d = (xs.getLast?).getD x := by
  induction xs generalizing x d with
  | nil => rfl
  | cons y ys ih =>
    rw [List.getLast?_cons_cons, ih y d, ih y x]

/-- The color-attachment loop accumulator equals the last element of the
bound run of attachment sizes, with the accumulator as default. -/
lemma render_target_size_colors_eq (l : List ColorAttachment) (wh : Nat × Nat) :
    render_target_size_colors l wh
      = (((l.takeWhile (fun a => a.texture.isSome)).map
          attachment_size).getLast?).getD wh := by
  induction l generalizing wh with
  | nil => rfl
  | cons a rest ih =>
    cases ht : a.texture with
    | none =>
      simp only [render_target_size_colors, ht]
      rw [List.takeWhile_cons_of_neg (by simp [ht])]
      simp
    | some t =>
      simp only [render_target_size_colors, ht]
      rw [List.takeWhile_cons_of_pos (by simp [ht]), List.map_cons,
        getLast?_getD_cons, ih]
      simp [attachment_size, ht]

/-- C5 amended: when called from the idle state, `begin_render_pass` sets
the render-target width and height to the size of the depth-stencil
attachment's texture when one is bound, and otherwise to the size of the
last bound color attachment before the first unbound slot — not the
first bound attachment. -/
theorem begin_render_pass_size (s : CommandBufferState) (desc : RenderPassDesc)
    (h : pass_open s = false) :
    (begin_render_pass s desc).map CommandBufferState.commands
      = some (s.commands ++ [MetalCommand.setRenderTargetSize
          (last_bound_attachment_size desc).1
          (last_bound_attachment_size desc).2]) := by
  have hsize : render_target_size desc = last_bound_attachment_size desc := by
    rw [render_target_size, last_bound_attachment_size]
    cases desc.depth_stencil_attachment.texture with
    | some t => rfl
    | none => simpa using render_target_size_colors_eq (desc.color_attachments.take 8) (0, 0)
  simp [begin_render_pass, h, emit, hsize]

/-- An idle command buffer (C5 witness state). -/
def c5_witness_idle : CommandBufferState :=
  ⟨false, false, false, [], none, []⟩

/-- A render-pass descriptor with colors 16×16 and 8×8 and a 32×32
depth-stencil attachment (C5 witness). -/
def c5_witness_desc : RenderPassDesc :=
  ⟨[⟨some ⟨16, 16⟩⟩, ⟨some ⟨8, 8⟩⟩, ⟨none⟩], ⟨some ⟨32, 32⟩⟩⟩

/-- C5 amended witness: from the idle state, the depth-stencil
attachment's 32×32 size wins over both color attachments. -/
theorem begin_render_pass_size_witness :
    pass_open c5_witness_idle = false ∧
    (begin_render_pass c5_witness_idle c5_witness_desc).map
        CommandBufferState.commands
      = some [MetalCommand.setRenderTargetSize 32 32] :=
  ⟨by decide, begin_render_pass_size c5_witness_idle c5_witness_desc (by decide)⟩

/-- Helper: the buffer-view loop writes only at argument indices at or
above its starting offset. -/
lemma write_buffer_views_lt (t : DescriptorType) (views : List BufferViewDesc)
    (off : Nat) (data : Nat → Option Nat) (j : Nat) (hj : j < off) :
    write_buffer_views t off views data j = data j := by
  induction views generalizing off data with
  | nil => rfl
  | cons v rest ih =>
    rw [write_buffer_views, ih (off + 1) _ (by omega)]
    rw [write_slot]
    simp only [if_neg (by omega : ¬ j = off)]

/-- Helper: the argument slot written for the i-th buffer view of a write
holds the view's buffer address plus the per-view offset. -/
lemma write_buffer_views_get (t : DescriptorType) (views : List BufferViewDesc)
    (off : Nat) (data : Nat → Option Nat) (i : Nat) (hi : i < views.length) :
    write_buffer_views t off views data (off + i)
      = some ((views.get ⟨i, hi⟩).buffer_address +
          buffer_view_offset t (views.get ⟨i, hi⟩)) := by
  induction views generalizing off data i with
  | nil => exact absurd hi (by simp)
  | cons v rest ih =>
    cases i with
    | zero =>
      rw [write_buffer_views,
        write_buffer_views_lt t rest (off + 1) _ (off + 0) (by omega)]
      rw [write_slot]
      simp
    | succ i2 =>
      rw [write_buffer_views, show off + (i2 + 1) = (off + 1) + i2 by omega,
        ih (off + 1) _ i2 (by simpa using hi)]
      simp

/-- A descriptor set whose layout has one `uniform_buffer_view` binding at
slot 0 with argument offset 0, with an empty argument buffer
(C6 counterexample). -/
def c6_set : DescriptorSetState :=
  ⟨⟨[⟨0, DescriptorType.uniform_buffer_view, 1⟩], [0]⟩, fun _ => none⟩

/-- A uniform-buffer write at slot 0: buffer base address 1000,
`first_element = 2`, `element_size = 16`, format `unknown`
(C6 counterexample). -/
def c6_write : WriteDescriptorSet :=
  ⟨0, DescriptorType.uniform_buffer_view, 0, [⟨1000, 2, 16, Format.unknown⟩], [], []⟩

/-- C6 counterexample: for a `uniform_buffer_view` write with format
`unknown`, `first_element = 2` and `element_size = 16`, the argument slot
receives base + 2 (the source adds `first_element` directly), not
base + 2·16 as the claim's formula demands. -/
theorem update_descriptors_uniform_counterexample :
    (update_descriptors c6_set [c6_write]).1.data 0 = some 1002 ∧
    (1002 : Nat) ≠ 1000 + 2 * 16 := by
  exact ⟨rfl, by decide⟩

/-- C6 amended: for every buffer-typed descriptor write processed by
`update_descriptors`, the address written into each argument slot equals
the buffer's base GPU address plus `first_element` for
`uniform_buffer_view` writes, and — for `read_buffer_view` and
`read_write_buffer_view` writes — plus `element_size * first_element`
when the view's format is `unknown`, else
`bits_per_pixel(format) * first_element / 8`. -/
theorem update_descriptors_buffer_view_address (s : DescriptorSetState)
    (w : WriteDescriptorSet) (binding_index : Nat)
    (hfind : find_binding_index s.layout.bindings w.binding_slot
      = some binding_index)
    (htype : w.type = DescriptorType.uniform_buffer_view ∨
      w.type = DescriptorType.read_buffer_view ∨
      w.type = DescriptorType.read_write_buffer_view)
    (i : Nat) (hi : i < w.buffer_views.length) :
    (update_descriptors s [w]).1.data
        (s.layout.argument_offsets.getD binding_index 0 + w.first_array_index + i)
      = some ((w.buffer_views.get ⟨i, hi⟩).buffer_address +
          (if w.type = DescriptorType.uniform_buffer_view then
            (w.buffer_views.get ⟨i, hi⟩).first_element
          else if (w.buffer_views.get ⟨i, hi⟩).format = Format.unknown then
            (w.buffer_views.get ⟨i, hi⟩).element_size *
              (w.buffer_views.get ⟨i, hi⟩).first_element
          else
            bits_per_pixel (w.buffer_views.get ⟨i, hi⟩).format *
              (w.buffer_views.get ⟨i, hi⟩).first_element / 8)) := by
  rcases htype with ht | ht | ht <;>
  · simp only [update_descriptors, hfind, ht]
    exact write_buffer_views_get _ _ _ _ i hi

/-- A descriptor set whose layout has one `read_buffer_view` binding at
slot 2 with argument offset 5 (C6 witness). -/
def c6_witness_set : DescriptorSetState :=
  ⟨⟨[⟨2, DescriptorType.read_buffer_view, 4⟩], [5]⟩, fun _ => none⟩

/-- A read-buffer write at slot 2 with `first_array_index = 1` and one
typed view: base address 1000, `first_element = 3`, format `r32_uint`
(C6 witness). -/
def c6_witness_write : WriteDescriptorSet :=
  ⟨2, DescriptorType.read_buffer_view, 1, [⟨1000, 3, 0, Format.r32_uint⟩], [], []⟩

/-- C6 amended witness: the typed `r32_uint` view lands at argument slot
5 + 1 + 0 with address 1000 + 32·3/8 = 1012. -/
theorem update_descriptors_buffer_view_address_witness :
    find_binding_index c6_witness_set.layout.bindings c6_witness_write.binding_slot
      = some 0 ∧
    (c6_witness_write.type = DescriptorType.uniform_buffer_view ∨
      c6_witness_write.type = DescriptorType.read_buffer_view ∨
      c6_witness_write.type = DescriptorType.read_write_buffer_view) ∧
    0 < c6_witness_write.buffer_views.length ∧
    (update_descriptors c6_witness_set [c6_witness_write]).1.data 6 = some 1012 := by
  refine ⟨by decide, Or.inr (Or.inl rfl), by decide, ?_⟩
  have h := update_descriptors_buffer_view_address c6_witness_set c6_witness_write 0
    (by decide) (Or.inr (Or.inl rfl)) 0 (by decide)
  simpa [c6_witness_set, c6_witness_write, bits_per_pixel] using h

/-- Helper: `update_descriptors` reports `bad_arguments` exactly when some
write's binding slot resolves to no layout binding record; the layout
itself is never modified while processing writes. -/
lemma update_descriptors_error_characterization (writes : List WriteDescriptorSet)
    (s : DescriptorSetState) :
    (update_descriptors s writes).2
      = if writes.all
          (fun w => (find_binding_index s.layout.bindings w.binding_slot).isSome)
        then none else some RHIError.bad_arguments := by
  induction writes generalizing s with
  | nil => rfl
  | cons w rest ih =>
    rw [update_descriptors]
    cases hfind : find_binding_index s.layout.bindings w.binding_slot with
    | none => simp [hfind]
    | some binding_index =>
      cases htype : w.type <;> simp [ih, hfind, htype]

/-- C7: each write's binding slot is resolved by the linear scan over the
layout's binding records; when some write's slot matches no record,
`update_descriptors` returns the `bad_arguments` error, and when every
write resolves, no `bad_arguments` error is produced. -/
theorem update_descriptors_slot_resolution (s : DescriptorSetState)
    (writes : List WriteDescriptorSet) :
    ((∃ w ∈ writes, find_binding_index s.layout.bindings w.binding_slot = none) →
      (update_descriptors s writes).2 = some RHIError.bad_arguments) ∧
    ((∀ w ∈ writes,
        (find_binding_index s.layout.bindings w.binding_slot).isSome = true) →
      (update_descriptors s writes).2 = none) := by
  constructor
  · rintro ⟨w, hw, hnone⟩
    rw [update_descriptors_error_characterization]
    have hall : writes.all
        (fun w2 => (find_binding_index s.layout.bindings w2.binding_slot).isSome)
        = false := by
      rcases hfalse : writes.all
        (fun w2 => (find_binding_index s.layout.bindings w2.binding_slot).isSome) with _ | _
      · rfl
      · have := List.all_eq_true.mp hfalse w hw
        rw [hnone] at this
        cases this
    rw [hall]
    rfl
  · intro hall
    rw [update_descriptors_error_characterization]
    have : writes.all
        (fun w2 => (find_binding_index s.layout.bindings w2.binding_slot).isSome)
        = true :=
      List.all_eq_true.mpr (fun w hw => hall w hw)
    rw [this]
    rfl

/-- A descriptor set whose layout has a single sampler binding at slot 3
(C7 witness). -/
def c7_set : DescriptorSetState :=
  ⟨⟨[⟨3, DescriptorType.sampler, 1⟩], [0]⟩, fun _ => none⟩

/-- A sampler write naming the undeclared binding slot 5 (C7 witness). -/
def c7_bad_write : WriteDescriptorSet :=
  ⟨5, DescriptorType.sampler, 0, [], [], [7]⟩

/-- A sampler write naming the declared binding slot 3 (C7 witness). -/
def c7_good_write : WriteDescriptorSet :=
  ⟨3, DescriptorType.sampler, 0, [], [], [7]⟩

/-- C7 witness: a batch naming undeclared slot 5 fails with
`bad_arguments`; a batch naming only the declared slot 3 reports no
error. -/
theorem update_descriptors_slot_resolution_witness :
    (∃ w ∈ [c7_bad_write],
      find_binding_index c7_set.layout.bindings w.binding_slot = none) ∧
    (update_descriptors c7_set [c7_bad_write]).2 = some RHIError.bad_arguments ∧
    (∀ w ∈ [c7_good_write],
      (find_binding_index c7_set.layout.bindings w.binding_slot).isSome = true) ∧
    (update_descriptors c7_set [c7_good_write]).2 = none :=
  ⟨⟨c7_bad_write, by simp, by decide⟩,
    (update_descriptors_slot_resolution c7_set [c7_bad_write]).1
      ⟨c7_bad_write, by simp, by decide⟩,
    by simp [find_binding_index, c7_set, c7_good_write],
    (update_descriptors_slot_resolution c7_set [c7_good_write]).2
      (by simp [find_binding_index, c7_set, c7_good_write])⟩

end LunaRHI
